/-
  Verification of the problem-selector core of leetcode-tools.

  Shallow embedding of:
    - src/leetcode_tools/selector/scoring.py  (calculate_quality_score)
    - src/leetcode_tools/selector/engine.py   (ProblemSelector: bracket/weight
      loading, get_quality_problems, generate_problem_list)

  Numeric values are modelled as rationals; Python ints as Int/Nat; nullable
  fields as Option; the database and the filesystem as explicit parameters.
-/
import Mathlib

/-- A problem candidate as stored in the database.  Every field is nullable
(`problem.get(...)` in Python); `topics` and `companies` are the raw
comma-separated tag strings. -/
structure Problem where
  frequency_bar : Option ℚ := none
  acceptance_rate : Option ℚ := none
  likes : Option Int := none
  dislikes : Option Int := none
  difficulty : Option String := none
  rating : Option ℚ := none
  topics : Option String := none
  companies : Option String := none

/-- `s.split(', ')` on a character list: cut at every occurrence of the
two-character separator `", "`, scanning left to right. -/
def splitTagsChars : List Char → List (List Char)
  | [] => [[]]
  | ',' :: ' ' :: rest => [] :: splitTagsChars rest
  | c :: rest =>
    match splitTagsChars rest with
    | [] => [[c]]
    | l :: ls => (c :: l) :: ls

/-- `problem.get("topics", "").split(', ') if problem.get("topics") else []`:
a missing or empty tag string yields no tags. -/
def splitTags : Option String → List String
  | none => []
  | some s => if s = "" then [] else (splitTagsChars s.toList).map (fun cs => String.mk cs)

/-- `dislikes = int(problem.get("dislikes", 1)) if ... is not None else 1`. -/
def dislikesOf (p : Problem) : Int := p.dislikes.getD 1

/-- `like_ratio = likes / dislikes if dislikes > 0 else 0`. -/
def ratioOf (likes dislikes : Int) : ℚ :=
  if 0 < dislikes then (likes : ℚ) / (dislikes : ℚ) else 0

/-- `freq_score = min(frequency, 80) / 80 * 40`. -/
def freqScoreOf (frequency : ℚ) : ℚ := min frequency 80 / 80 * 40

/-- Acceptance-rate sub-score: a difficulty-specific optimal band scores the
full 20 points; below the band a linear ramp `acceptance / lo * 20`; above it
`max(0, (hi + 20 - acceptance) / 20) * 20`.  Any difficulty string other than
"Easy" and "Medium" takes the final (Hard) branch, as in the Python
if/elif/else chain. -/
def accScoreOf (difficulty : String) (acceptance : ℚ) : ℚ :=
  if difficulty = "Easy" then
    if 50 ≤ acceptance ∧ acceptance ≤ 70 then 20
    else if acceptance < 50 then acceptance / 50 * 20
    else max 0 ((90 - acceptance) / 20) * 20
  else if difficulty = "Medium" then
    if 40 ≤ acceptance ∧ acceptance ≤ 60 then 20
    else if acceptance < 40 then acceptance / 40 * 20
    else max 0 ((80 - acceptance) / 20) * 20
  else
    if 30 ≤ acceptance ∧ acceptance ≤ 50 then 20
    else if acceptance < 30 then acceptance / 30 * 20
    else max 0 ((70 - acceptance) / 20) * 20

/-- `like_score = min(like_ratio, 30) / 30 * 20`. -/
def likeScoreOf (ratioVal : ℚ) : ℚ := min ratioVal 30 / 30 * 20

/-- `topic_weights.get(topic, 1.0)`. -/
def lookupWeight (topic_weights : List (String × ℚ)) (topic : String) : ℚ :=
  (topic_weights.lookup topic).getD 1

/-- Topic sub-score: average looked-up weight of the problem's topics, capped
at 1.3 and scaled to 15 points; 0 when the problem has no topics. -/
def topicScoreOf (topic_weights : List (String × ℚ)) (topics : List String) : ℚ :=
  if topics = [] then 0
  else
    let total_weight := (topics.map (fun t => lookupWeight topic_weights t)).sum
    let avg_weight := total_weight / (topics.length : ℚ)
    min avg_weight 1.3 / 1.3 * 15

/-- `rating_score = min(5, max(0, 5 - abs(rating - 2000) / 200)) if rating > 0 else 0`. -/
def ratingScoreOf (rating : ℚ) : ℚ :=
  if 0 < rating then min 5 (max 0 (5 - |rating - 2000| / 200)) else 0

/-- `target_companies = ["google", "amazon", "facebook", "microsoft", "apple"]`. -/
def target_companies : List String :=
  ["google", "amazon", "facebook", "microsoft", "apple"]

/-- Character-list version of `s1.startsWith s2`. -/
def startsWithChars : List Char → List Char → Bool
  | [], _ => true
  | _ :: _, [] => false
  | a :: as, b :: bs => a == b && startsWithChars as bs

/-- `needle in hay` on character lists: some suffix of `hay` starts with `needle`. -/
def hasSubChars (needle : List Char) : List Char → Bool
  | [] => startsWithChars needle []
  | b :: bs => startsWithChars needle (b :: bs) || hasSubChars needle bs

/-- `s.lower()` on ASCII text, character by character. -/
def toLowerChars (l : List Char) : List Char := l.map Char.toLower

/-- `any(target.lower() in company.lower() for target in target_companies)`. -/
def isTargetCompany (company : String) : Bool :=
  target_companies.any
    (fun t => hasSubChars (toLowerChars t.toList) (toLowerChars company.toList))

/-- Company sub-score: 2 points per company tag matching a target company,
capped at 10; 0 when the problem has no company tags. -/
def companyScoreOf (companies : List String) : ℚ :=
  if companies = [] then 0
  else min (2 * ((companies.countP isTargetCompany : ℕ) : ℚ)) 10

/-- `calculate_quality_score(problem, topic_weights)` from
src/leetcode_tools/selector/scoring.py: the sum of the six sub-scores, with
missing numeric fields defaulting to 0 (dislikes to 1) and missing difficulty
to "Medium". -/
def calculate_quality_score (problem : Problem) (topic_weights : List (String × ℚ)) : ℚ :=
  let frequency := problem.frequency_bar.getD 0
  let acceptance := problem.acceptance_rate.getD 0
  let likes := problem.likes.getD 0
  let dislikes := dislikesOf problem
  let ratioVal := ratioOf likes dislikes
  let difficulty := problem.difficulty.getD "Medium"
  let rating := problem.rating.getD 0
  let topics := splitTags problem.topics
  let companies := splitTags problem.companies
  freqScoreOf frequency + accScoreOf difficulty acceptance + likeScoreOf ratioVal
    + topicScoreOf topic_weights topics + ratingScoreOf rating + companyScoreOf companies

/-- The built-in default topic weights of `ProblemSelector._load_topic_weights`. -/
def default_weights : List (String × ℚ) :=
  [("Array", 1.5), ("Hash Table", 1.5), ("Linked List", 1.3), ("Tree", 1.4),
   ("Binary Tree", 1.4), ("Binary Search Tree", 1.3), ("Heap (Priority Queue)", 1.4),
   ("Stack", 1.3), ("Queue", 1.3), ("Graph", 1.5),
   ("Dynamic Programming", 1.5), ("Binary Search", 1.5), ("Depth-First Search", 1.5),
   ("Breadth-First Search", 1.5), ("Two Pointers", 1.4), ("Sliding Window", 1.4),
   ("Backtracking", 1.3), ("Greedy", 1.4), ("Sorting", 1.3),
   ("Design", 1.6), ("Data Stream", 1.5), ("Iterator", 1.3), ("Concurrency", 1.5),
   ("Trie", 1.4), ("Union Find", 1.4), ("Segment Tree", 1.4),
   ("Binary Indexed Tree", 1.4), ("Monotonic Stack", 1.3), ("Monotonic Queue", 1.3),
   ("String", 1.3), ("Math", 1.2), ("Bit Manipulation", 1.2)]

/-- One rating bracket's configuration (`ProblemSelector._load_rating_brackets`):
the difficulty percentages, the acceptance ranges for medium and hard problems,
the minimum like ratio and the minimum frequency. -/
structure BracketConfig where
  easy_pct : ℕ
  medium_pct : ℕ
  hard_pct : ℕ
  medium_acc : ℚ × ℚ
  hard_acc : ℚ × ℚ
  ratioMin : ℚ
  freq_min : ℚ
deriving DecidableEq

/-- The built-in default rating-bracket table of
`ProblemSelector._load_rating_brackets`. -/
def default_brackets : List (String × BracketConfig) :=
  [("1700-1800", { easy_pct := 20, medium_pct := 70, hard_pct := 10,
                   medium_acc := (45, 70), hard_acc := (30, 45),
                   ratioMin := 5.0, freq_min := 50 }),
   ("1800-1900", { easy_pct := 10, medium_pct := 65, hard_pct := 25,
                   medium_acc := (35, 60), hard_acc := (25, 40),
                   ratioMin := 7.0, freq_min := 60 }),
   ("1900-2000", { easy_pct := 5, medium_pct := 55, hard_pct := 40,
                   medium_acc := (30, 50), hard_acc := (20, 35),
                   ratioMin := 10.0, freq_min := 70 }),
   ("2000-2100", { easy_pct := 0, medium_pct := 50, hard_pct := 50,
                   medium_acc := (25, 45), hard_acc := (15, 30),
                   ratioMin := 15.0, freq_min := 75 }),
   ("2100-2200", { easy_pct := 0, medium_pct := 40, hard_pct := 60,
                   medium_acc := (20, 40), hard_acc := (10, 25),
                   ratioMin := 20.0, freq_min := 80 }),
   ("2200-2300", { easy_pct := 0, medium_pct := 30, hard_pct := 70,
                   medium_acc := (15, 35), hard_acc := (5, 20),
                   ratioMin := 25.0, freq_min := 85 }),
   ("2300-2400", { easy_pct := 0, medium_pct := 20, hard_pct := 80,
                   medium_acc := (10, 30), hard_acc := (0, 15),
                   ratioMin := 30.0, freq_min := 90 })]

/-- Outcome of trying to read a configuration file: the path was absent or the
file did not exist; the read or the JSON parse raised; or parsing succeeded
with some table. -/
inductive LoadOutcome (α : Type)
  | noFile
  | loadError
  | parsed (t : α)

/-- `ProblemSelector._load_rating_brackets`: the built-in defaults unless a
file was successfully read and parsed (the list-to-tuple normalisation of the
Python code is the identity in this model, where acceptance ranges are pairs). -/
def loadRatingBrackets : LoadOutcome (List (String × BracketConfig)) → List (String × BracketConfig)
  | .noFile => default_brackets
  | .loadError => default_brackets
  | .parsed t => t

/-- `ProblemSelector._load_topic_weights`: same fallback shape. -/
def loadTopicWeights : LoadOutcome (List (String × ℚ)) → List (String × ℚ)
  | .noFile => default_weights
  | .loadError => default_weights
  | .parsed t => t

/-- The database fetch `db_manager.get_quality_problems(difficulty, acc_range,
freq_min, like_ratio_min, count)`, modelled as an opaque function supplied to
the selector. -/
def DbFetch : Type := String → ℚ × ℚ → ℚ → ℚ → ℕ → List Problem

/-- A `ProblemSelector` after `__init__`: its database handle and the two
loaded configuration tables. -/
structure ProblemSelector where
  db : DbFetch
  rating_brackets : List (String × BracketConfig)
  topic_weights : List (String × ℚ)

/-- `ProblemSelector.get_quality_problems`: on an unknown bracket, an empty
list; otherwise fetch `count * 2` candidates matching the bracket's filters,
score each, sort by descending quality score and keep the first `count`. -/
def get_quality_problems (sel : ProblemSelector) (rating_bracket difficulty : String)
    (count : ℕ) : List (Problem × ℚ) :=
  match sel.rating_brackets.lookup rating_bracket with
  | none => []
  | some cfg =>
    let acc_range := if difficulty = "Easy" then ((0 : ℚ), (100 : ℚ))
      else if difficulty = "Medium" then cfg.medium_acc else cfg.hard_acc
    let problems := sel.db difficulty acc_range cfg.freq_min cfg.ratioMin (count * 2)
    let scored := problems.map (fun p => (p, calculate_quality_score p sel.topic_weights))
    (scored.mergeSort (fun a b => decide (b.2 ≤ a.2))).take count

/-- The per-difficulty counts of `ProblemSelector.generate_problem_list`:
raw counts `int(problem_count * pct / 100)` for each difficulty, then, when
their sum falls short of `problem_count`, the shortfall goes half (rounded
down) to medium and the rest to hard when `medium_count > 0`, otherwise
entirely to hard. -/
def difficultyCounts (cfg : BracketConfig) (problem_count : ℕ) : ℕ × ℕ × ℕ :=
  let easy_count := problem_count * cfg.easy_pct / 100
  let medium_count := problem_count * cfg.medium_pct / 100
  let hard_count := problem_count * cfg.hard_pct / 100
  let total := easy_count + medium_count + hard_count
  if total < problem_count then
    let diff := problem_count - total
    if 0 < medium_count then
      (easy_count, medium_count + diff / 2, hard_count + (diff - diff / 2))
    else
      (easy_count, medium_count, hard_count + diff)
  else
    (easy_count, medium_count, hard_count)

/-- The output aggregate of `generate_problem_list`: the bracket label, the
actual number of candidates returned, and the three scored difficulty
segments. -/
structure ProblemSelection where
  rating_bracket : String
  total_count : ℕ
  easy : List (Problem × ℚ)
  medium : List (Problem × ℚ)
  hard : List (Problem × ℚ)

/-- `ProblemSelector.generate_problem_list`: `none` models the empty dict
`{}` returned for an unknown bracket label; otherwise the per-difficulty
counts are computed, each non-empty difficulty is fetched through
`get_quality_problems`, and the selection is assembled with `total_count`
equal to the number of candidates actually returned. -/
def generate_problem_list (sel : ProblemSelector) (rating_bracket : String)
    (problem_count : ℕ) : Option ProblemSelection :=
  match sel.rating_brackets.lookup rating_bracket with
  | none => none
  | some cfg =>
    let counts := difficultyCounts cfg problem_count
    let easy_problems :=
      if 0 < counts.1 then get_quality_problems sel rating_bracket "Easy" counts.1 else []
    let medium_problems :=
      if 0 < counts.2.1 then get_quality_problems sel rating_bracket "Medium" counts.2.1 else []
    let hard_problems :=
      if 0 < counts.2.2 then get_quality_problems sel rating_bracket "Hard" counts.2.2 else []
    some { rating_bracket := rating_bracket,
           total_count := easy_problems.length + medium_problems.length + hard_problems.length,
           easy := easy_problems,
           medium := medium_problems,
           hard := hard_problems }

/-- The acceptance band shape as the spec words it: full 20 points inside
`[lo, hi]`, ramp `acceptance / lo * 20` below, ramp
`max(0, (hi + 20 - acceptance) / 20) * 20` above.  Spec-side formulation, to
be compared with `accScoreOf` from the source. -/
def bandScore (lo hi acceptance : ℚ) : ℚ :=
  if lo ≤ acceptance ∧ acceptance ≤ hi then 20
  else if acceptance < lo then acceptance / lo * 20
  else max 0 ((hi + 20 - acceptance) / 20) * 20

/-- A database that returns no candidates, for concrete instantiations. -/
def emptyDb : DbFetch := fun _ _ _ _ _ => []

/-- A selector built with no configuration files present: both tables are the
built-in defaults. -/
def defaultSelector : ProblemSelector :=
  { db := emptyDb,
    rating_brackets := loadRatingBrackets .noFile,
    topic_weights := loadTopicWeights .noFile }

/-- The concrete scoring scenario of the spec: frequency 80, Medium, 50%
acceptance, 10 likes, 1 dislike, rating 2000, topic "Array", company
"Google". -/
def scenarioProblem : Problem :=
  { frequency_bar := some 80, acceptance_rate := some 50, likes := some 10,
    dislikes := some 1, difficulty := some "Medium", rating := some 2000,
    topics := some "Array", companies := some "Google" }

/-- The "1900-2000" entry of the default bracket table, for concrete
instantiations. -/
def bracket1900 : BracketConfig :=
  { easy_pct := 5, medium_pct := 55, hard_pct := 40,
    medium_acc := (30, 50), hard_acc := (20, 35),
    ratioMin := 10.0, freq_min := 70 }

/-- The "1700-1800" entry of the default bracket table, for concrete
instantiations. -/
def bracket1700 : BracketConfig :=
  { easy_pct := 20, medium_pct := 70, hard_pct := 10,
    medium_acc := (45, 70), hard_acc := (30, 45),
    ratioMin := 5.0, freq_min := 50 }

/-! ## Theorems -/

/-- C1: for every bracket in the built-in default table and every requested
`totalCount ≥ 0`, the per-difficulty counts of `generate_problem_list` after
shortfall reallocation (raw counts `floor(totalCount * pct / 100)`, shortfall
split `diff // 2` to medium and the rest to hard when `mediumCount > 0`, all
to hard otherwise) sum to exactly `totalCount`. -/
theorem difficultyCounts_sum_eq_total (label : String) (cfg : BracketConfig)
    (h : (label, cfg) ∈ default_brackets) (n : ℕ) :
    (difficultyCounts cfg n).1 + (difficultyCounts cfg n).2.1 + (difficultyCounts cfg n).2.2 = n := by
  have hpct : cfg.easy_pct + cfg.medium_pct + cfg.hard_pct = 100 := by
    fin_cases h <;> rfl
  have key : n * cfg.easy_pct / 100 + n * cfg.medium_pct / 100 + n * cfg.hard_pct / 100 ≤ n := by
    have h1 : n * cfg.easy_pct / 100 + n * cfg.medium_pct / 100 ≤
        (n * cfg.easy_pct + n * cfg.medium_pct) / 100 := Nat.add_div_le_add_div _ _ _
    have h2 : (n * cfg.easy_pct + n * cfg.medium_pct) / 100 + n * cfg.hard_pct / 100 ≤
        (n * cfg.easy_pct + n * cfg.medium_pct + n * cfg.hard_pct) / 100 :=
      Nat.add_div_le_add_div _ _ _
    have h3 : n * cfg.easy_pct + n * cfg.medium_pct + n * cfg.hard_pct = n * 100 := by
      rw [← Nat.mul_add, ← Nat.mul_add, hpct]
    have h4 : n * 100 / 100 = n := by omega
    calc n * cfg.easy_pct / 100 + n * cfg.medium_pct / 100 + n * cfg.hard_pct / 100
        ≤ (n * cfg.easy_pct + n * cfg.medium_pct) / 100 + n * cfg.hard_pct / 100 :=
          Nat.add_le_add_right h1 _
      _ ≤ (n * cfg.easy_pct + n * cfg.medium_pct + n * cfg.hard_pct) / 100 := h2
      _ = n := by rw [h3, h4]
  unfold difficultyCounts
  dsimp only
  set e := n * cfg.easy_pct / 100 with he
  set m := n * cfg.medium_pct / 100 with hm
  set hc := n * cfg.hard_pct / 100 with hh
  split_ifs with h1 h2 <;> dsimp only <;> omega

/-- C1 witness: the "1900-2000" bracket at `totalCount = 10` distributes
`(0, 5, 5)`, which sums to 10. -/
theorem difficultyCounts_sum_eq_total_witness :
    (difficultyCounts bracket1900 10).1 + (difficultyCounts bracket1900 10).2.1 +
      (difficultyCounts bracket1900 10).2.2 = 10 :=
  difficultyCounts_sum_eq_total "1900-2000" bracket1900
    (by simp [default_brackets, bracket1900]) 10

/-- C2 counterexample: for the unknown bracket label "1500-1600" the selector
returns the empty dict `{}` (modelled as `none`), which is not a
`ProblemSelection` carrying `total_count = 0`. -/
theorem generate_unknown_bracket_no_total_count :
    ¬ ∃ r : ProblemSelection,
        generate_problem_list defaultSelector "1500-1600" 10 = some r ∧
        r.total_count = 0 := by
  rintro ⟨r, hr, -⟩
  have h : generate_problem_list defaultSelector "1500-1600" 10 = none := rfl
  rw [h] at hr
  exact Option.noConfusion hr

/-- C2 (amended): for every bracket label not present in the loaded bracket
table and every requested count, `generate_problem_list` does not raise and
returns the empty result `{}` (no fields at all, modelled as `none`). -/
theorem generate_unknown_bracket_empty (sel : ProblemSelector) (label : String)
    (n : ℕ) (h : sel.rating_brackets.lookup label = none) :
    generate_problem_list sel label n = none := by
  unfold generate_problem_list
  rw [h]

/-- C2 witness: the default table does not contain "1500-1600", and the
selector returns the empty result there. -/
theorem generate_unknown_bracket_empty_witness :
    generate_problem_list defaultSelector "1500-1600" 10 = none :=
  generate_unknown_bracket_empty defaultSelector "1500-1600" 10 rfl

/-- C7: `_load_rating_brackets` returns the built-in default table of exactly
seven brackets, labelled "1700-1800" through "2300-2400" in 100-point steps,
whenever the path is absent or the file is missing (`noFile`) or reading or
parsing raised (`loadError`); only a successfully parsed file replaces the
defaults. -/
theorem loadRatingBrackets_defaults :
    loadRatingBrackets .noFile = default_brackets ∧
    loadRatingBrackets .loadError = default_brackets ∧
    default_brackets.length = 7 ∧
    default_brackets.map Prod.fst =
      ["1700-1800", "1800-1900", "1900-2000", "2000-2100",
       "2100-2200", "2200-2300", "2300-2400"] ∧
    ∀ o : LoadOutcome (List (String × BracketConfig)),
      loadRatingBrackets o ≠ default_brackets →
        ∃ t, o = .parsed t ∧ loadRatingBrackets o = t := by
  refine ⟨rfl, rfl, rfl, rfl, fun o => ?_⟩
  cases o with
  | noFile => exact fun h => absurd rfl h
  | loadError => exact fun h => absurd rfl h
  | parsed t => exact fun _ => ⟨t, rfl, rfl⟩

/-- The "Easy" branch of `accScoreOf` is the spec's band shape for `[50, 70]`
(the code's `(90 - acceptance) / 20` is `(70 + 20 - acceptance) / 20`). -/
theorem accScoreOf_eq_band_easy (acc : ℚ) : accScoreOf "Easy" acc = bandScore 50 70 acc := by
  unfold accScoreOf bandScore
  rw [if_pos rfl]
  split_ifs <;> norm_num

/-- The "Medium" branch of `accScoreOf` is the spec's band shape for `[40, 60]`. -/
theorem accScoreOf_eq_band_medium (acc : ℚ) : accScoreOf "Medium" acc = bandScore 40 60 acc := by
  unfold accScoreOf bandScore
  rw [if_neg (by decide : ¬("Medium" = "Easy")), if_pos rfl]
  split_ifs <;> norm_num

/-- Every difficulty string other than exactly "Easy" and "Medium" takes the
final branch of `accScoreOf`, the spec's band shape for `[30, 50]`. -/
theorem accScoreOf_eq_band_other (d : String) (h1 : d ≠ "Easy") (h2 : d ≠ "Medium")
    (acc : ℚ) : accScoreOf d acc = bandScore 30 50 acc := by
  unfold accScoreOf bandScore
  rw [if_neg h1, if_neg h2]
  split_ifs <;> norm_num

/-- A band score of shape `bandScore lo hi` with `0 < lo ≤ hi` is 20 exactly
inside the band, is the lower ramp (strictly below 20) below it, and the upper
ramp (strictly below 20) above it. -/
theorem bandScore_eq_twenty_iff (lo hi acc : ℚ) (hlo : 0 < lo) (hhi : lo ≤ hi)
    (h0 : 0 ≤ acc) :
    (bandScore lo hi acc = 20 ↔ lo ≤ acc ∧ acc ≤ hi) ∧
    (acc < lo → bandScore lo hi acc = acc / lo * 20 ∧ bandScore lo hi acc < 20) ∧
    (hi < acc → bandScore lo hi acc = max 0 ((hi + 20 - acc) / 20) * 20 ∧
      bandScore lo hi acc < 20) := by
  unfold bandScore
  split_ifs with h1 h2
  · exact ⟨iff_of_true rfl h1,
      fun hcl => absurd h1.1 (not_le.mpr hcl),
      fun hca => absurd h1.2 (not_le.mpr hca)⟩
  · have hne : acc / lo * 20 < 20 := by
      have hd : acc / lo < 1 := (div_lt_one hlo).mpr h2
      nlinarith
    exact ⟨iff_of_false (ne_of_lt hne) (fun hc => absurd hc.1 (not_le.mpr h2)),
      fun _ => ⟨rfl, hne⟩,
      fun hca => by linarith⟩
  · have hla : lo ≤ acc := not_lt.mp h2
    have hha : hi < acc := by
      by_contra hc
      exact h1 ⟨hla, not_lt.mp hc⟩
    have hlt : max 0 ((hi + 20 - acc) / 20) * 20 < 20 := by
      have h5 : (hi + 20 - acc) / 20 < 1 := by
        rw [div_lt_one (by norm_num : (0 : ℚ) < 20)]
        linarith
      have h6 : max 0 ((hi + 20 - acc) / 20) < 1 := max_lt one_pos h5
      nlinarith
    exact ⟨iff_of_false (ne_of_lt hlt) (fun hc => absurd hc.2 (not_le.mpr hha)),
      fun hcl => absurd hcl (not_lt.mpr hla),
      fun _ => ⟨rfl, hlt⟩⟩

/-- C4: for acceptance rates in [0, 100] the acceptance sub-score is its cap
20 exactly when the rate lies in the difficulty's optimal band (Easy [50,70],
Medium [40,60], Hard [30,50]); below the band it equals
`acceptance / lo * 20`, above it `max(0, (hi + 20 - acceptance) / 20) * 20`,
both strictly below 20. -/
theorem accScore_band_characterisation (d : String) (lo hi acc : ℚ)
    (hd : (d = "Easy" ∧ lo = 50 ∧ hi = 70) ∨ (d = "Medium" ∧ lo = 40 ∧ hi = 60) ∨
      (d = "Hard" ∧ lo = 30 ∧ hi = 50))
    (h0 : 0 ≤ acc) (h100 : acc ≤ 100) :
    (accScoreOf d acc = 20 ↔ lo ≤ acc ∧ acc ≤ hi) ∧
    (acc < lo → accScoreOf d acc = acc / lo * 20 ∧ accScoreOf d acc < 20) ∧
    (hi < acc → accScoreOf d acc = max 0 ((hi + 20 - acc) / 20) * 20 ∧
      accScoreOf d acc < 20) := by
  obtain ⟨rfl, rfl, rfl⟩ | ⟨rfl, rfl, rfl⟩ | ⟨rfl, rfl, rfl⟩ := hd
  · rw [accScoreOf_eq_band_easy]
    exact bandScore_eq_twenty_iff 50 70 acc (by norm_num) (by norm_num) h0
  · rw [accScoreOf_eq_band_medium]
    exact bandScore_eq_twenty_iff 40 60 acc (by norm_num) (by norm_num) h0
  · rw [accScoreOf_eq_band_other "Hard" (by decide) (by decide)]
    exact bandScore_eq_twenty_iff 30 50 acc (by norm_num) (by norm_num) h0

/-- C4 witness: a Medium problem at 50% acceptance sits in the band and scores
the full 20 points. -/
theorem accScore_band_characterisation_witness :
    ((accScoreOf "Medium" 50 = 20 ↔ (40 : ℚ) ≤ 50 ∧ (50 : ℚ) ≤ 60) ∧
    ((50 : ℚ) < 40 → accScoreOf "Medium" 50 = 50 / 40 * 20 ∧ accScoreOf "Medium" 50 < 20) ∧
    ((60 : ℚ) < 50 → accScoreOf "Medium" 50 = max 0 ((60 + 20 - 50) / 20) * 20 ∧
      accScoreOf "Medium" 50 < 20)) ∧ accScoreOf "Medium" 50 = 20 := by
  have h := accScore_band_characterisation "Medium" 40 60 50
    (Or.inr (Or.inl ⟨rfl, rfl, rfl⟩)) (by norm_num) (by norm_num)
  exact ⟨h, h.1.mpr (by norm_num)⟩

/-- C10: a candidate with no difficulty field is scored with the Medium band
(the code defaults the field to "Medium"), while any other difficulty string —
case-sensitively, e.g. "medium" — that is not exactly "Easy" or "Medium" is
scored with the Hard band [30, 50]. -/
theorem missing_difficulty_and_case_sensitivity :
    (∀ acc : ℚ, accScoreOf ((none : Option String).getD "Medium") acc = bandScore 40 60 acc) ∧
    (∀ (d : String) (acc : ℚ), d ≠ "Easy" → d ≠ "Medium" →
      accScoreOf d acc = bandScore 30 50 acc) ∧
    (∀ acc : ℚ, accScoreOf "medium" acc = bandScore 30 50 acc) :=
  ⟨fun acc => accScoreOf_eq_band_medium acc,
   fun d acc h1 h2 => accScoreOf_eq_band_other d h1 h2 acc,
   fun acc => accScoreOf_eq_band_other "medium" (by decide) (by decide) acc⟩

/-- C3: the spec's concrete scenario — frequency 80, Medium at 50% acceptance,
10 likes / 1 dislike, rating 2000, topic "Array" (default weight 1.5), company
"Google" — scores 40 + 20 + (10/30)*20 + (1.3/1.3)*15 + 5 + 2 = 266/3 ≈ 88.67
under the built-in default topic weights. -/
theorem scenario_score_value :
    calculate_quality_score scenarioProblem default_weights =
      40 + 20 + (10 / 30) * 20 + (1.3 / 1.3) * 15 + 5 + 2 ∧
    calculate_quality_score scenarioProblem default_weights = 266 / 3 := by
  have ht : splitTags scenarioProblem.topics = ["Array"] := by decide
  have hc : splitTags scenarioProblem.companies = ["Google"] := by decide
  have hcount : ([("Google" : String)]).countP isTargetCompany = 1 := by decide
  have hl : List.lookup "Array" default_weights = some (1.5 : ℚ) := rfl
  constructor <;>
    (rw [calculate_quality_score, ht, hc]
     norm_num [freqScoreOf, accScoreOf, likeScoreOf, topicScoreOf, ratingScoreOf,
       companyScoreOf, ratioOf, dislikesOf, lookupWeight, hl, hcount, scenarioProblem,
       List.countP_cons, List.countP_nil])

/-- C5: the like-ratio conventions of the scoring function: a present
`dislikes` equal to 0 forces ratio 0 and like sub-score 0 (even when
`likes > 0`), an entirely absent `dislikes` field defaults to 1, and the
sub-score is `min(ratio, 30) / 30 * 20`. -/
theorem like_ratio_conventions (p : Problem) :
    (p.dislikes = some 0 →
      ratioOf (p.likes.getD 0) (dislikesOf p) = 0 ∧
      likeScoreOf (ratioOf (p.likes.getD 0) (dislikesOf p)) = 0) ∧
    (p.dislikes = none → dislikesOf p = 1) ∧
    likeScoreOf (ratioOf (p.likes.getD 0) (dislikesOf p)) =
      min (ratioOf (p.likes.getD 0) (dislikesOf p)) 30 / 30 * 20 := by
  refine ⟨fun h0 => ?_, fun hn => by rw [dislikesOf, hn]; rfl, rfl⟩
  have hd : dislikesOf p = 0 := by rw [dislikesOf, h0]; rfl
  have hr : ratioOf (p.likes.getD 0) (dislikesOf p) = 0 := by
    rw [hd, ratioOf]
    norm_num
  refine ⟨hr, ?_⟩
  rw [hr, likeScoreOf]
  norm_num

/-- C5 witness: with 10 likes and a present 0-dislikes field, the ratio and
the like sub-score are both 0. -/
theorem like_ratio_conventions_witness :
    ratioOf ((Problem.likes { likes := some 10, dislikes := some 0 }).getD 0)
        (dislikesOf { likes := some 10, dislikes := some 0 }) = 0 ∧
    likeScoreOf (ratioOf ((Problem.likes { likes := some 10, dislikes := some 0 }).getD 0)
        (dislikesOf { likes := some 10, dislikes := some 0 })) = 0 :=
  (like_ratio_conventions { likes := some 10, dislikes := some 0 }).1 rfl

/-- C8: the frequency sub-score (and hence the total score, all other fields
held fixed) is monotone in `frequencyBar` up to the cap 80, and a missing
frequency scores like frequency 0. -/
theorem score_monotone_in_frequency (w : List (String × ℚ)) (p : Problem)
    (f₁ f₂ : ℚ) (h12 : f₁ ≤ f₂) (h80 : f₂ ≤ 80) :
    freqScoreOf f₁ ≤ freqScoreOf f₂ ∧
    calculate_quality_score { p with frequency_bar := some f₁ } w ≤
      calculate_quality_score { p with frequency_bar := some f₂ } w ∧
    calculate_quality_score { p with frequency_bar := none } w =
      calculate_quality_score { p with frequency_bar := some 0 } w := by
  have hf : freqScoreOf f₁ ≤ freqScoreOf f₂ := by
    unfold freqScoreOf
    rw [min_eq_left (h12.trans h80), min_eq_left h80]
    linarith
  refine ⟨hf, ?_, rfl⟩
  unfold calculate_quality_score
  dsimp only
  simp only [dislikesOf, Option.getD_some]
  linarith

/-- The band shape stays within `[0, 20]` for non-negative acceptance. -/
theorem bandScore_bounds (lo hi acc : ℚ) (hlo : 0 < lo) (hhi : lo ≤ hi) (h0 : 0 ≤ acc) :
    0 ≤ bandScore lo hi acc ∧ bandScore lo hi acc ≤ 20 := by
  unfold bandScore
  split_ifs with h1 h2
  · norm_num
  · refine ⟨mul_nonneg (div_nonneg h0 hlo.le) (by norm_num), ?_⟩
    have hd : acc / lo < 1 := (div_lt_one hlo).mpr h2
    nlinarith
  · have hla : lo ≤ acc := not_lt.mp h2
    have hha : hi < acc := by
      by_contra hc
      exact h1 ⟨hla, not_lt.mp hc⟩
    refine ⟨mul_nonneg (le_max_left 0 _) (by norm_num), ?_⟩
    have h5 : (hi + 20 - acc) / 20 < 1 := by
      rw [div_lt_one (by norm_num : (0 : ℚ) < 20)]
      linarith
    have h6 : max 0 ((hi + 20 - acc) / 20) < 1 := max_lt one_pos h5
    nlinarith

/-- The frequency sub-score stays within `[0, 40]`. -/
theorem freqScore_bounds (f : ℚ) (hf : 0 ≤ f) :
    0 ≤ freqScoreOf f ∧ freqScoreOf f ≤ 40 := by
  unfold freqScoreOf
  constructor
  · exact mul_nonneg (div_nonneg (le_min hf (by norm_num)) (by norm_num)) (by norm_num)
  · have h1 : min f 80 ≤ 80 := min_le_right f 80
    nlinarith

/-- The acceptance sub-score stays within `[0, 20]` for every difficulty
string. -/
theorem accScore_bounds (d : String) (acc : ℚ) (h0 : 0 ≤ acc) :
    0 ≤ accScoreOf d acc ∧ accScoreOf d acc ≤ 20 := by
  by_cases hE : d = "Easy"
  · subst hE
    rw [accScoreOf_eq_band_easy]
    exact bandScore_bounds 50 70 acc (by norm_num) (by norm_num) h0
  by_cases hM : d = "Medium"
  · subst hM
    rw [accScoreOf_eq_band_medium]
    exact bandScore_bounds 40 60 acc (by norm_num) (by norm_num) h0
  · rw [accScoreOf_eq_band_other d hE hM]
    exact bandScore_bounds 30 50 acc (by norm_num) (by norm_num) h0

/-- The like ratio is non-negative when `likes` is. -/
theorem ratioOf_nonneg (l d : Int) (hl : 0 ≤ l) : 0 ≤ ratioOf l d := by
  unfold ratioOf
  split_ifs with h
  · exact div_nonneg (by exact_mod_cast hl) (by exact_mod_cast h.le)
  · exact le_refl 0

/-- The like sub-score stays within `[0, 20]` for a non-negative ratio. -/
theorem likeScore_bounds (r : ℚ) (hr : 0 ≤ r) :
    0 ≤ likeScoreOf r ∧ likeScoreOf r ≤ 20 := by
  unfold likeScoreOf
  constructor
  · exact mul_nonneg (div_nonneg (le_min hr (by norm_num)) (by norm_num)) (by norm_num)
  · have : min r 30 ≤ 30 := min_le_right r 30
    nlinarith

/-- A looked-up topic weight is non-negative when every weight in the table
is (the default for an unknown topic is 1). -/
theorem lookupWeight_nonneg (w : List (String × ℚ)) (hw : ∀ x ∈ w, 0 ≤ x.2)
    (t : String) : 0 ≤ lookupWeight w t := by
  induction w with
  | nil => norm_num [lookupWeight]
  | cons x xs ih =>
    obtain ⟨k, v⟩ := x
    rw [lookupWeight, List.lookup_cons]
    cases h : (t == k) with
    | true =>
      have := hw (k, v) (List.mem_cons_self _ _)
      simpa using this
    | false =>
      exact ih fun y hy => hw y (List.mem_cons_of_mem _ hy)

/-- The topic sub-score stays within `[0, 15]` when every table weight is
non-negative. -/
theorem topicScore_bounds (w : List (String × ℚ)) (hw : ∀ x ∈ w, 0 ≤ x.2)
    (ts : List String) : 0 ≤ topicScoreOf w ts ∧ topicScoreOf w ts ≤ 15 := by
  unfold topicScoreOf
  split_ifs with h
  · norm_num
  · dsimp only
    have hS0 : 0 ≤ (ts.map (fun t => lookupWeight w t)).sum := by
      refine List.sum_nonneg ?_
      intro x hx
      obtain ⟨t, ht, rfl⟩ := List.mem_map.mp hx
      exact lookupWeight_nonneg w hw t
    have hlen : (0 : ℚ) < (ts.length : ℚ) := by
      exact_mod_cast List.length_pos.mpr h
    have havg : 0 ≤ (ts.map (fun t => lookupWeight w t)).sum / (ts.length : ℚ) :=
      div_nonneg hS0 hlen.le
    constructor
    · exact mul_nonneg (div_nonneg (le_min havg (by norm_num)) (by norm_num)) (by norm_num)
    · have hd1 : min ((ts.map (fun t => lookupWeight w t)).sum / (ts.length : ℚ)) 1.3 / 1.3 ≤ 1 :=
        (div_le_one (by norm_num)).mpr (min_le_right _ _)
      linarith

/-- The rating sub-score always stays within `[0, 5]`. -/
theorem ratingScore_bounds (r : ℚ) : 0 ≤ ratingScoreOf r ∧ ratingScoreOf r ≤ 5 := by
  unfold ratingScoreOf
  split_ifs
  · exact ⟨le_min (by norm_num) (le_max_left 0 _), min_le_left _ _⟩
  · norm_num

/-- The company sub-score always stays within `[0, 10]`. -/
theorem companyScore_bounds (cs : List String) :
    0 ≤ companyScoreOf cs ∧ companyScoreOf cs ≤ 10 := by
  unfold companyScoreOf
  split_ifs
  · norm_num
  · exact ⟨le_min (by positivity) (by norm_num), min_le_right _ _⟩

/-- C8 witness: raising the frequency from 40 to 80 on the scenario problem
does not decrease the frequency sub-score or the total score. -/
theorem score_monotone_in_frequency_witness :
    freqScoreOf 40 ≤ freqScoreOf 80 ∧
    calculate_quality_score { scenarioProblem with frequency_bar := some 40 } default_weights ≤
      calculate_quality_score { scenarioProblem with frequency_bar := some 80 } default_weights ∧
    calculate_quality_score { scenarioProblem with frequency_bar := none } default_weights =
      calculate_quality_score { scenarioProblem with frequency_bar := some 0 } default_weights :=
  score_monotone_in_frequency default_weights scenarioProblem 40 80 (by norm_num) (by norm_num)

/-- C9: for a candidate whose present numeric fields are non-negative, scored
against a weight table with non-negative weights (the built-in defaults
qualify), each sub-score lies within `[0, cap]` for caps 40, 20, 20, 15, 5,
10, and the total score lies within `[0, 110]`. -/
theorem quality_score_bounds (w : List (String × ℚ)) (hw : ∀ x ∈ w, 0 ≤ x.2)
    (p : Problem)
    (hf : 0 ≤ p.frequency_bar.getD 0) (ha : 0 ≤ p.acceptance_rate.getD 0)
    (hl : 0 ≤ p.likes.getD 0) (hd : 0 ≤ p.dislikes.getD 1)
    (hr : 0 ≤ p.rating.getD 0) :
    (0 ≤ freqScoreOf (p.frequency_bar.getD 0) ∧
      freqScoreOf (p.frequency_bar.getD 0) ≤ 40) ∧
    (0 ≤ accScoreOf (p.difficulty.getD "Medium") (p.acceptance_rate.getD 0) ∧
      accScoreOf (p.difficulty.getD "Medium") (p.acceptance_rate.getD 0) ≤ 20) ∧
    (0 ≤ likeScoreOf (ratioOf (p.likes.getD 0) (dislikesOf p)) ∧
      likeScoreOf (ratioOf (p.likes.getD 0) (dislikesOf p)) ≤ 20) ∧
    (0 ≤ topicScoreOf w (splitTags p.topics) ∧ topicScoreOf w (splitTags p.topics) ≤ 15) ∧
    (0 ≤ ratingScoreOf (p.rating.getD 0) ∧ ratingScoreOf (p.rating.getD 0) ≤ 5) ∧
    (0 ≤ companyScoreOf (splitTags p.companies) ∧
      companyScoreOf (splitTags p.companies) ≤ 10) ∧
    0 ≤ calculate_quality_score p w ∧ calculate_quality_score p w ≤ 110 := by
  have h1 := freqScore_bounds _ hf
  have h2 := accScore_bounds (p.difficulty.getD "Medium") _ ha
  have h3 := likeScore_bounds _ (ratioOf_nonneg (p.likes.getD 0) (dislikesOf p) hl)
  have h4 := topicScore_bounds w hw (splitTags p.topics)
  have h5 := ratingScore_bounds (p.rating.getD 0)
  have h6 := companyScore_bounds (splitTags p.companies)
  have htot : calculate_quality_score p w =
      freqScoreOf (p.frequency_bar.getD 0) +
        accScoreOf (p.difficulty.getD "Medium") (p.acceptance_rate.getD 0) +
        likeScoreOf (ratioOf (p.likes.getD 0) (dislikesOf p)) +
        topicScoreOf w (splitTags p.topics) + ratingScoreOf (p.rating.getD 0) +
        companyScoreOf (splitTags p.companies) := rfl
  refine ⟨h1, h2, h3, h4, h5, h6, ?_, ?_⟩ <;> rw [htot]
  · linarith [h1.1, h2.1, h3.1, h4.1, h5.1, h6.1]
  · linarith [h1.2, h2.2, h3.2, h4.2, h5.2, h6.2]

/-- C9 witness: the all-fields-missing candidate under the default weights. -/
theorem quality_score_bounds_witness :
    (0 ≤ freqScoreOf ((Problem.frequency_bar {}).getD 0) ∧
      freqScoreOf ((Problem.frequency_bar {}).getD 0) ≤ 40) ∧
    (0 ≤ accScoreOf ((Problem.difficulty {}).getD "Medium") ((Problem.acceptance_rate {}).getD 0) ∧
      accScoreOf ((Problem.difficulty {}).getD "Medium") ((Problem.acceptance_rate {}).getD 0) ≤ 20) ∧
    (0 ≤ likeScoreOf (ratioOf ((Problem.likes {}).getD 0) (dislikesOf {})) ∧
      likeScoreOf (ratioOf ((Problem.likes {}).getD 0) (dislikesOf {})) ≤ 20) ∧
    (0 ≤ topicScoreOf default_weights (splitTags (Problem.topics {})) ∧
      topicScoreOf default_weights (splitTags (Problem.topics {})) ≤ 15) ∧
    (0 ≤ ratingScoreOf ((Problem.rating {}).getD 0) ∧
      ratingScoreOf ((Problem.rating {}).getD 0) ≤ 5) ∧
    (0 ≤ companyScoreOf (splitTags (Problem.companies {})) ∧
      companyScoreOf (splitTags (Problem.companies {})) ≤ 10) ∧
    0 ≤ calculate_quality_score {} default_weights ∧
      calculate_quality_score {} default_weights ≤ 110 :=
  quality_score_bounds default_weights
    (by intro x hx; fin_cases hx <;> norm_num) {}
    (by norm_num) (by norm_num) (by norm_num) (by norm_num) (by norm_num)

/-- `get_quality_problems` returns a list sorted by non-increasing quality
score, of length at most the requested count. -/
theorem get_quality_problems_sorted_le (sel : ProblemSelector)
    (rating_bracket difficulty : String) (count : ℕ) :
    (get_quality_problems sel rating_bracket difficulty count).Pairwise
      (fun a b => b.2 ≤ a.2) ∧
    (get_quality_problems sel rating_bracket difficulty count).length ≤ count := by
  unfold get_quality_problems
  cases hl : sel.rating_brackets.lookup rating_bracket with
  | none => simp
  | some cfg =>
    dsimp only
    constructor
    · refine List.Pairwise.sublist (List.take_sublist _ _) ?_
      have hs := @List.sorted_mergeSort (Problem × ℚ)
        (fun a b : Problem × ℚ => decide (b.2 ≤ a.2))
        (fun a b c hab hbc =>
          decide_eq_true (le_trans (of_decide_eq_true hbc) (of_decide_eq_true hab)))
        (fun a b => by
          simp only [Bool.or_eq_true, decide_eq_true_eq]
          exact le_total b.2 a.2)
        ((sel.db difficulty
            (if difficulty = "Easy" then ((0 : ℚ), (100 : ℚ))
             else if difficulty = "Medium" then cfg.medium_acc else cfg.hard_acc)
            cfg.freq_min cfg.ratioMin (count * 2)).map
          (fun p => (p, calculate_quality_score p sel.topic_weights)))
      exact hs.imp (fun h => of_decide_eq_true h)
    · rw [List.length_take]
      exact min_le_left _ _

/-- C6: every difficulty segment of a selection produced by
`generate_problem_list` is ordered by non-increasing quality score, and its
length is bounded by the per-difficulty target count of that invocation. -/
theorem generate_segments_sorted_bounded (sel : ProblemSelector) (bracket : String)
    (n : ℕ) (cfg : BracketConfig) (r : ProblemSelection)
    (hcfg : sel.rating_brackets.lookup bracket = some cfg)
    (hr : generate_problem_list sel bracket n = some r) :
    (r.easy.Pairwise (fun a b => b.2 ≤ a.2) ∧
      r.easy.length ≤ (difficultyCounts cfg n).1) ∧
    (r.medium.Pairwise (fun a b => b.2 ≤ a.2) ∧
      r.medium.length ≤ (difficultyCounts cfg n).2.1) ∧
    (r.hard.Pairwise (fun a b => b.2 ≤ a.2) ∧
      r.hard.length ≤ (difficultyCounts cfg n).2.2) := by
  unfold generate_problem_list at hr
  rw [hcfg] at hr
  dsimp only at hr
  simp only [Option.some.injEq] at hr
  subst hr
  have key : ∀ (d : String) (c : ℕ),
      ((if 0 < c then get_quality_problems sel bracket d c else []).Pairwise
        (fun (a b : Problem × ℚ) => b.2 ≤ a.2)) ∧
      (if 0 < c then get_quality_problems sel bracket d c else []).length ≤ c := by
    intro d c
    split_ifs with h
    · exact get_quality_problems_sorted_le sel bracket d c
    · simp
  exact ⟨key "Easy" _, key "Medium" _, key "Hard" _⟩

/-- The selection returned for the "1700-1800" bracket at requested count 0
over an empty database. -/
def emptySelection1700 : ProblemSelection :=
  { rating_bracket := "1700-1800", total_count := 0,
    easy := [], medium := [], hard := [] }

/-- C6 witness: the "1700-1800" bracket at requested count 0 over the empty
database yields empty, trivially sorted segments within their targets. -/
theorem generate_segments_sorted_bounded_witness :
    (emptySelection1700.easy.Pairwise (fun a b => b.2 ≤ a.2) ∧
      emptySelection1700.easy.length ≤ (difficultyCounts bracket1700 0).1) ∧
    (emptySelection1700.medium.Pairwise (fun a b => b.2 ≤ a.2) ∧
      emptySelection1700.medium.length ≤ (difficultyCounts bracket1700 0).2.1) ∧
    (emptySelection1700.hard.Pairwise (fun a b => b.2 ≤ a.2) ∧
      emptySelection1700.hard.length ≤ (difficultyCounts bracket1700 0).2.2) :=
  generate_segments_sorted_bounded defaultSelector "1700-1800" 0 bracket1700
    emptySelection1700 rfl rfl
